import Mathlib

/-!
Shallow embedding of serve.py, the static HTTP file server with CORS
header injection.  Pure argument handling is translated as Lean
functions; process effects (printing, changing directory, socket
binding, the serve loop, process exit) are recorded as an ordered event
trace produced by the embedded main function.
-/

namespace Serve

/-- True on the ASCII whitespace characters that the Python builtin int
conversion strips from both ends of its argument before parsing. -/
def isPySpace (c : Char) : Bool :=
  c = ' ' || c = '\t' || c = '\n' || c = '\r' || c = '\x0b' || c = '\x0c'

/-- Accumulating parser for the tail of a Python decimal literal:
digits optionally separated by single underscores, with no underscore
at the end and no two underscores in a row. -/
def pyDigitsAux : List Char → Nat → Option Nat
  | [], acc => some acc
  | ['_'], _ => none
  | '_' :: c :: rest, acc =>
      if c.isDigit then pyDigitsAux rest (acc * 10 + (c.toNat - 48)) else none
  | c :: rest, acc =>
      if c.isDigit then pyDigitsAux rest (acc * 10 + (c.toNat - 48)) else none

/-- Value of a nonempty Python decimal digit sequence with the
underscore grouping rule; none when the sequence is empty or
malformed.  Models the ASCII decimal fragment of the Python int
builtin; Unicode digit classes do not arise for this program. -/
def pyDigits : List Char → Option Nat
  | [] => none
  | c :: rest => if c.isDigit then pyDigitsAux rest (c.toNat - 48) else none

/-- Strip leading and trailing Python whitespace characters. -/
def stripPySpace (cs : List Char) : List Char :=
  ((cs.dropWhile isPySpace).reverse.dropWhile isPySpace).reverse

/-- Parse the stripped character sequence: an optional single plus or
minus sign followed by a digit sequence. -/
def pySigned : List Char → Option Int
  | '+' :: rest => (pyDigits rest).map Int.ofNat
  | '-' :: rest => (pyDigits rest).map (fun n => -(n : Int))
  | cs => (pyDigits cs).map Int.ofNat

/-- The Python builtin int applied to a string in base 10, as used at
serve.py line 25: strips surrounding whitespace, accepts an optional
sign and underscore digit grouping, and fails (raising ValueError in
Python, returning none here) on anything else. -/
def pyInt (s : String) : Option Int :=
  pySigned (stripPySpace s.toList)

/-- The default port used when no CLI argument is given
(serve.py line 22). -/
def defaultPort : Int := 8000

/-- Port resolution from sys.argv, which carries the script name at
position 0 (serve.py lines 22 to 28): when a first positional argument
exists it must parse as a Python integer, otherwise the default is
used; any further arguments are never inspected. -/
def resolvePort : List String → Except String Int
  | _ :: arg :: _ =>
      match pyInt arg with
      | some n => Except.ok n
      | none => Except.error arg
  | _ => Except.ok defaultPort

/-- The valid TCP port range enforced by the socket layer when binding:
outside this range the bind call raises OverflowError. -/
def portInRange (p : Int) : Bool :=
  decide (0 ≤ p ∧ p ≤ 65535)

/-- Outcome of attempting to create the listening socket, determined by
the environment: the port is free, already occupied, or privileged and
the process lacks permission. -/
inductive BindResult where
  | ok
  | portInUse
  | permissionDenied
deriving DecidableEq, Repr

/-- The environment of one process invocation: argv including the
script name, the directory containing the script itself (the parent of
the __file__ path, serve.py line 31), and how the operating system
answers the bind attempt. -/
structure Env where
  argv : List String
  scriptDir : String
  bind : BindResult

/-- Observable process events of one run, in order.  The serveLoop
event stands for serve_forever running until the operator interrupt,
which is the only way it stops; raiseUncaught stands for an exception
propagating out of main, upon which the interpreter prints a traceback
to stderr and exits with status 1. -/
inductive Event where
  | print (line : String)
  | chdir (dir : String)
  | bindAttempt (host : String) (port : Int)
  | bindOk
  | raiseUncaught (exn : String)
  | serveLoop
  | exitProc (code : Nat)
deriving DecidableEq, Repr

/-- The banner printed after a successful bind
(serve.py lines 46 to 50). -/
def bannerLines (p : Int) : List String :=
  ["☕ Coffee Roaster Digital Twin Server",
   "Serving at http://localhost:" ++ toString p,
   "Press Ctrl+C to stop the server",
   "",
   "Open http://localhost:" ++ toString p ++ " in your web browser to use the simulator"]

/-- The shutdown notice printed when KeyboardInterrupt is caught
(serve.py line 55). -/
def stopNotice : String := "\nServer stopped."

/-- The event trace of main (serve.py lines 20 to 55).  An argument
that fails integer parsing prints the error and exits 1 before any
other effect.  Otherwise the working directory is changed to the
script directory and the TCPServer constructor attempts to bind
host "" at the resolved port: out of range ports raise OverflowError,
an occupied or privileged port raises an OSError kind, and all of
these propagate uncaught.  On success the banner is printed, the serve
loop runs until the interrupt, the stop notice is printed, and the
process exits cleanly with status 0. -/
def run (env : Env) : List Event :=
  match resolvePort env.argv with
  | Except.error arg =>
      [Event.print ("Invalid port number: " ++ arg), Event.exitProc 1]
  | Except.ok p =>
      [Event.chdir env.scriptDir, Event.bindAttempt "" p] ++
      (if portInRange p then
        match env.bind with
        | BindResult.ok =>
            [Event.bindOk] ++ (bannerLines p).map Event.print ++
              [Event.serveLoop, Event.print stopNotice, Event.exitProc 0]
        | BindResult.portInUse =>
            [Event.raiseUncaught "OSError: Address already in use",
             Event.exitProc 1]
        | BindResult.permissionDenied =>
            [Event.raiseUncaught "PermissionError: Permission denied",
             Event.exitProc 1]
      else
        [Event.raiseUncaught "OverflowError", Event.exitProc 1])

/-- True exactly on bindAttempt events, used to count bind attempts in
a trace. -/
def isBindAttemptEv : Event → Bool
  | Event.bindAttempt _ _ => true
  | _ => false

/-- One buffered send_header call of the base HTTP request handler:
the header line is appended to the header buffer
(serve.py lines 40 to 42 use it three times). -/
def send_header (buf : List (String × String)) (k v : String) :
    List (String × String) :=
  buf ++ [(k, v)]

/-- The end_headers of the base SimpleHTTPRequestHandler: it flushes
the buffered header lines to the wire in buffer order. -/
def baseEndHeaders (buf : List (String × String)) : List (String × String) :=
  buf

/-- The overridden end_headers of CORSRequestHandler
(serve.py lines 39 to 43): three send_header calls followed by the
base end_headers flush. -/
def corsEndHeaders (buf : List (String × String)) : List (String × String) :=
  baseEndHeaders
    (send_header
      (send_header
        (send_header buf "Access-Control-Allow-Origin" "*")
        "Access-Control-Allow-Methods" "GET, POST, OPTIONS")
      "Access-Control-Allow-Headers" "*")

/-- A response as produced by the underlying static file handler for
one inbound request, before end_headers runs: its status code, its
inferred content type, and the headers it has buffered. -/
structure BaseResponse where
  status : Nat
  contentType : Option String
  headers : List (String × String)

/-- The header sequence sent on the wire for a response: the buffered
headers of the base handler passed through the overridden
end_headers. -/
def finalHeaders (r : BaseResponse) : List (String × String) :=
  corsEndHeaders r.headers

/-- The three CORS header lines injected by CORSRequestHandler. -/
def corsHeaders : List (String × String) :=
  [("Access-Control-Allow-Origin", "*"),
   ("Access-Control-Allow-Methods", "GET, POST, OPTIONS"),
   ("Access-Control-Allow-Headers", "*")]

/-- C1: for every inbound HTTP request, regardless of the response
status code or content type, the header sequence sent by the request
handler includes Access-Control-Allow-Origin *, the Allow-Methods
list GET, POST, OPTIONS, and Allow-Headers *, added before the headers
are flushed to the wire. -/
theorem cors_headers_present_in_every_response (r : BaseResponse) :
    ("Access-Control-Allow-Origin", "*") ∈ finalHeaders r ∧
    ("Access-Control-Allow-Methods", "GET, POST, OPTIONS") ∈ finalHeaders r ∧
    ("Access-Control-Allow-Headers", "*") ∈ finalHeaders r := by
  simp [finalHeaders, corsEndHeaders, baseEndHeaders, send_header]

/-- C8: in every response the three CORS headers appear after the
underlying static file handler headers in the sequence sent to the
client: the wire sequence is exactly the base headers followed by the
three CORS lines. -/
theorem cors_headers_appended_after_base (r : BaseResponse) :
    finalHeaders r = r.headers ++ corsHeaders := by
  simp [finalHeaders, corsEndHeaders, baseEndHeaders, send_header, corsHeaders]

/-- C2: a CLI argument that is not parseable as a Python integer makes
the process print the error naming the value, exit with status 1, and
never attempt or complete any socket bind. -/
theorem invalid_port_error_path (env : Env) (prog arg : String)
    (rest : List String) (hargv : env.argv = prog :: arg :: rest)
    (hbad : pyInt arg = none) :
    run env = [Event.print ("Invalid port number: " ++ arg), Event.exitProc 1] ∧
    Event.print ("Invalid port number: " ++ arg) ∈ run env ∧
    Event.exitProc 1 ∈ run env ∧
    (∀ h p, Event.bindAttempt h p ∉ run env) ∧
    Event.bindOk ∉ run env := by
  simp [run, resolvePort, hargv, hbad]

/-- C2 witness at argv serve.py abc. -/
theorem invalid_port_error_path_witness :
    run ⟨["serve.py", "abc"], "webapp", BindResult.ok⟩ =
      [Event.print "Invalid port number: abc", Event.exitProc 1] :=
  (invalid_port_error_path ⟨["serve.py", "abc"], "webapp", BindResult.ok⟩
    "serve.py" "abc" [] rfl (by decide)).1

/-- C3: an argument that parses as an integer outside the TCP port
range 0 to 65535 makes the process fail fast: the bind attempt raises
OverflowError, which propagates uncaught as a visible traceback, the
process exits with the nonzero status 1, and the serve loop never
runs. -/
theorem out_of_range_port_fails_fast (env : Env) (p : Int)
    (hres : resolvePort env.argv = Except.ok p)
    (hout : portInRange p = false) :
    Event.raiseUncaught "OverflowError" ∈ run env ∧
    Event.exitProc 1 ∈ run env ∧
    Event.serveLoop ∉ run env ∧
    Event.bindOk ∉ run env := by
  simp [run, hres, hout]

/-- C3 witness at argv serve.py 70000. -/
theorem out_of_range_port_fails_fast_witness :
    Event.raiseUncaught "OverflowError" ∈
      run ⟨["serve.py", "70000"], "webapp", BindResult.ok⟩ :=
  (out_of_range_port_fails_fast ⟨["serve.py", "70000"], "webapp", BindResult.ok⟩
    70000 rfl (by decide)).1

/-- C4: with no CLI argument the resolved port is 8000 and, when the
operating system grants the bind, the server binds a TCP listener on
the empty host (all interfaces) at port 8000. -/
theorem default_port_is_8000_and_binds (env : Env)
    (hargv : env.argv.length ≤ 1) (hbind : env.bind = BindResult.ok) :
    resolvePort env.argv = Except.ok 8000 ∧
    Event.bindAttempt "" 8000 ∈ run env ∧
    Event.bindOk ∈ run env := by
  obtain ⟨argv, d, b⟩ := env
  subst hbind
  match argv, hargv with
  | [], _ => simp [run, resolvePort, defaultPort, portInRange]
  | [prog], _ => simp [run, resolvePort, defaultPort, portInRange]

/-- C4 witness at argv containing only the script name. -/
theorem default_port_is_8000_and_binds_witness :
    resolvePort (Env.argv ⟨["serve.py"], "webapp", BindResult.ok⟩) =
      Except.ok 8000 :=
  (default_port_is_8000_and_binds ⟨["serve.py"], "webapp", BindResult.ok⟩
    (by decide) rfl).1

/-- C5: when the listener cannot be created because the port is
occupied or binding it needs a missing permission, the error
propagates uncaught as a visible message, the process exits with the
nonzero status 1, the serve loop never runs, and exactly one bind
attempt is made, at the resolved port only: no retry and no fallback
port. -/
theorem bind_failure_terminates (env : Env) (p : Int)
    (hres : resolvePort env.argv = Except.ok p)
    (hin : portInRange p = true)
    (hbind : env.bind = BindResult.portInUse ∨
      env.bind = BindResult.permissionDenied) :
    (∃ e, Event.raiseUncaught e ∈ run env) ∧
    Event.exitProc 1 ∈ run env ∧
    Event.serveLoop ∉ run env ∧
    Event.bindOk ∉ run env ∧
    (run env).countP isBindAttemptEv = 1 ∧
    (∀ h q, Event.bindAttempt h q ∈ run env → h = "" ∧ q = p) := by
  rcases hbind with hbind | hbind <;>
    simp [run, hres, hin, hbind, List.countP_cons, isBindAttemptEv]

/-- C5 witness: port 8000 already occupied. -/
theorem bind_failure_terminates_witness :
    Event.exitProc 1 ∈
      run ⟨["serve.py", "8000"], "webapp", BindResult.portInUse⟩ :=
  (bind_failure_terminates ⟨["serve.py", "8000"], "webapp", BindResult.portInUse⟩
    8000 rfl (by decide) (Or.inl rfl)).2.1

/-- C6: whenever the port argument parses, the working directory is
changed exactly once, to the directory containing the entry point
script, immediately before the listener bind attempt, and no further
directory change occurs for the rest of the run. -/
theorem chdir_once_before_bind (env : Env) (p : Int)
    (hres : resolvePort env.argv = Except.ok p) :
    ∃ rest, run env =
        Event.chdir env.scriptDir :: Event.bindAttempt "" p :: rest ∧
      ∀ d, Event.chdir d ∉ rest := by
  cases hpr : portInRange p with
  | false =>
      refine ⟨[Event.raiseUncaught "OverflowError", Event.exitProc 1],
        ?_, ?_⟩
      · simp [run, hres, hpr]
      · intro d; simp
  | true =>
      cases hb : env.bind with
      | ok =>
          refine ⟨[Event.bindOk] ++ (bannerLines p).map Event.print ++
              [Event.serveLoop, Event.print stopNotice, Event.exitProc 0],
            ?_, ?_⟩
          · simp [run, hres, hpr, hb]
          · intro d; simp
      | portInUse =>
          refine ⟨[Event.raiseUncaught "OSError: Address already in use",
              Event.exitProc 1], ?_, ?_⟩
          · simp [run, hres, hpr, hb]
          · intro d; simp
      | permissionDenied =>
          refine ⟨[Event.raiseUncaught "PermissionError: Permission denied",
              Event.exitProc 1], ?_, ?_⟩
          · simp [run, hres, hpr, hb]
          · intro d; simp

/-- C6 witness at the default invocation. -/
theorem chdir_once_before_bind_witness :
    ∃ rest, run ⟨["serve.py"], "webapp", BindResult.ok⟩ =
        Event.chdir "webapp" :: Event.bindAttempt "" 8000 :: rest ∧
      ∀ d, Event.chdir d ∉ rest :=
  chdir_once_before_bind ⟨["serve.py"], "webapp", BindResult.ok⟩ 8000 rfl

/-- C7: after a successful start, the run ends with the serve loop
stopping at the operator interrupt, the shutdown notice being printed,
and a clean process exit with status 0, in that order. -/
theorem interrupt_clean_shutdown (env : Env) (p : Int)
    (hres : resolvePort env.argv = Except.ok p)
    (hin : portInRange p = true)
    (hbind : env.bind = BindResult.ok) :
    ∃ pre, run env = pre ++
      [Event.serveLoop, Event.print stopNotice, Event.exitProc 0] := by
  refine ⟨[Event.chdir env.scriptDir, Event.bindAttempt "" p, Event.bindOk] ++
      (bannerLines p).map Event.print, ?_⟩
  simp [run, hres, hin, hbind]

/-- C7 witness at the default invocation. -/
theorem interrupt_clean_shutdown_witness :
    ∃ pre, run ⟨["serve.py"], "webapp", BindResult.ok⟩ = pre ++
      [Event.serveLoop, Event.print stopNotice, Event.exitProc 0] :=
  interrupt_clean_shutdown ⟨["serve.py"], "webapp", BindResult.ok⟩ 8000
    rfl (by decide) rfl

/-- C9: port resolution depends only on the first positional argument:
two invocations whose argument at position 1 agrees (or is absent in
both) resolve the same port, make the same accept or reject decision,
and produce identical runs; additional arguments are silently
ignored. -/
theorem port_depends_only_on_first_arg (a1 a2 : List String)
    (d : String) (b : BindResult)
    (h : (a1.drop 1).head? = (a2.drop 1).head?) :
    resolvePort a1 = resolvePort a2 ∧
    run ⟨a1, d, b⟩ = run ⟨a2, d, b⟩ := by
  have hres : resolvePort a1 = resolvePort a2 := by
    match a1, a2 with
    | [], [] => rfl
    | [], [_] => rfl
    | [_], [] => rfl
    | [_], [_] => rfl
    | [], _ :: _ :: _ => simp at h
    | [_], _ :: _ :: _ => simp at h
    | _ :: _ :: _, [] => simp at h
    | _ :: _ :: _, [_] => simp at h
    | _ :: y :: _, _ :: w :: _ =>
        simp at h
        simp [resolvePort, h]
  refine ⟨hres, ?_⟩
  simp only [run]
  rw [hres]

/-- C9 witness: extra arguments after the port are ignored. -/
theorem port_depends_only_on_first_arg_witness :
    resolvePort ["serve.py", "8080"] =
      resolvePort ["other.py", "8080", "extra", "args"] :=
  (port_depends_only_on_first_arg ["serve.py", "8080"]
    ["other.py", "8080", "extra", "args"] "webapp" BindResult.ok rfl).1

/-- C10: the invalid port error path is taken exactly when Python
integer parsing of the first argument fails; strings with surrounding
whitespace, a leading plus sign, or digit group underscores parse as
valid ports; and on the error path no directory change happens, so no
process state is modified. -/
theorem invalid_port_iff_python_parse (env : Env) (prog arg : String)
    (rest : List String) (hargv : env.argv = prog :: arg :: rest) :
    (pyInt arg = none ↔
      run env =
        [Event.print ("Invalid port number: " ++ arg), Event.exitProc 1]) ∧
    (pyInt arg = none → ∀ d, Event.chdir d ∉ run env) ∧
    pyInt " 8000 " = some 8000 ∧
    pyInt "+8000" = some 8000 ∧
    pyInt "8_000" = some 8000 := by
  refine ⟨⟨?_, ?_⟩, ?_, by decide, by decide, by decide⟩
  · intro hbad
    simp [run, resolvePort, hargv, hbad]
  · intro hrun
    cases hcase : pyInt arg with
    | none => rfl
    | some n => simp [run, resolvePort, hargv, hcase] at hrun
  · intro hbad d
    simp [run, resolvePort, hargv, hbad]

/-- C10 witness at argv serve.py abc. -/
theorem invalid_port_iff_python_parse_witness :
    pyInt " 8000 " = some 8000 :=
  (invalid_port_iff_python_parse ⟨["serve.py", "abc"], "webapp", BindResult.ok⟩
    "serve.py" "abc" [] rfl).2.2.1

end Serve
